import Mathlib

/-!
Shallow embedding of `web/apps/accounts/src/services/passkey.ts` (ente),
the passkey ceremony client, together with the URL-safe unpadded base64
codec it relies on. Definitions mirror the TypeScript source: ambient
browser state (token storage, the development-build flag) is passed
explicitly, and each HTTP or Credential Broker interaction takes the
outcome the outside world would supply for it, while the embedding records
the request the code would have issued (`none` when no call was made).
Theorems settle the specification claims about the module.
-/

namespace EntePasskey

/-! ## Binary encoder (URL-safe unpadded base64) -/

/-- The URL-safe base64 alphabet (RFC 4648 §5): `A-Z`, `a-z`, `0-9`, `-`, `_`. -/
def b64Alphabet : List Char :=
  ['A', 'B', 'C', 'D', 'E', 'F', 'G', 'H', 'I', 'J', 'K', 'L', 'M',
   'N', 'O', 'P', 'Q', 'R', 'S', 'T', 'U', 'V', 'W', 'X', 'Y', 'Z',
   'a', 'b', 'c', 'd', 'e', 'f', 'g', 'h', 'i', 'j', 'k', 'l', 'm',
   'n', 'o', 'p', 'q', 'r', 's', 't', 'u', 'v', 'w', 'x', 'y', 'z',
   '0', '1', '2', '3', '4', '5', '6', '7', '8', '9', '-', '_']

/-- The character standing for the 6-bit value `s`. -/
def b64Char (s : Nat) : Char := b64Alphabet.getD s 'A'

/-- The 6-bit value a character stands for, `none` for characters outside
the URL-safe alphabet. -/
def b64Index (c : Char) : Option Nat := b64Alphabet.findIdx? (· == c)

/-- Modelled from the spec: the byte-level core of `toB64URLSafeNoPadding`
(`@ente/shared/crypto/internal/libsodium`, not under `src/`): URL-safe,
padding-free base64 of a byte sequence, three bytes to four characters,
with a two/three character tail for one/two leftover bytes. -/
def b64Encode : List Nat → List Char
  | [] => []
  | [b1] => [b64Char (b1 / 4), b64Char (b1 % 4 * 16)]
  | [b1, b2] =>
    [b64Char (b1 / 4), b64Char (b1 % 4 * 16 + b2 / 16), b64Char (b2 % 16 * 4)]
  | b1 :: b2 :: b3 :: rest =>
    b64Char (b1 / 4) :: b64Char (b1 % 4 * 16 + b2 / 16) ::
      b64Char (b2 % 16 * 4 + b3 / 64) :: b64Char (b3 % 64) :: b64Encode rest

/-- Modelled from the spec: the byte-level core of `_sodium.from_base64`
(libsodium-wrappers, default `URLSAFE_NO_PADDING` variant, not under
`src/`): strict decoding of URL-safe unpadded base64, rejecting characters
outside the alphabet, impossible lengths, and nonzero trailing bits. -/
def b64Decode : List Char → Option (List Nat)
  | [] => some []
  | [c1, c2] =>
    match b64Index c1, b64Index c2 with
    | some s1, some s2 =>
      if s2 % 16 = 0 then some [s1 * 4 + s2 / 16] else none
    | _, _ => none
  | [c1, c2, c3] =>
    match b64Index c1, b64Index c2, b64Index c3 with
    | some s1, some s2, some s3 =>
      if s3 % 4 = 0 then some [s1 * 4 + s2 / 16, s2 % 16 * 16 + s3 / 4]
      else none
    | _, _, _ => none
  | c1 :: c2 :: c3 :: c4 :: rest =>
    match b64Index c1, b64Index c2, b64Index c3, b64Index c4, b64Decode rest with
    | some s1, some s2, some s3, some s4, some tail =>
      some ((s1 * 4 + s2 / 16) :: (s2 % 16 * 16 + s3 / 4) ::
        (s3 % 4 * 64 + s4) :: tail)
    | _, _, _, _, _ => none
  | [_] => none

/-- Modelled from the spec: `toB64URLSafeNoPadding` as used by the finish
payload builders — encode bytes to a URL-safe unpadded base64 string. -/
def toB64URLSafeNoPadding (b : List Nat) : String := ⟨b64Encode b⟩

/-- Modelled from the spec: `_sodium.from_base64` with its default
`URLSAFE_NO_PADDING` variant as applied to begin-response fields — decode a
URL-safe unpadded base64 string to bytes, `none` on malformed input. -/
def from_base64 (s : String) : Option (List Nat) := b64Decode s.data

/-! ## Redirect validator -/

/-- Model of JavaScript `String.prototype.endsWith`. -/
def jsEndsWith (s pat : String) : Bool := pat.data.isSuffixOf s.data

/-- The components of a WHATWG `URL` the redirect validator inspects:
`protocol` carries the trailing colon, `host` carries the port when one is
present, `hostname` does not. -/
structure URL where
  protocol : String
  host : String
  hostname : String
  deriving DecidableEq

/-- `isWhitelistedRedirect` from the source, with the ambient `isDevBuild`
flag passed explicitly. -/
def isWhitelistedRedirect (isDevBuild : Bool) (redirectURL : URL) : Bool :=
  (isDevBuild && jsEndsWith redirectURL.hostname "localhost") ||
    jsEndsWith redirectURL.host ".ente.io" ||
    jsEndsWith redirectURL.host ".ente.sh" ||
    redirectURL.protocol == "ente:" ||
    redirectURL.protocol == "enteauth:"

/-! ## Client state, failures, and the HTTP boundary -/

/-- The ambient browser storage the module reads: the accounts token
(`getToken()`) and the client package identifier; `none` models `null`. -/
structure ClientState where
  token : Option String
  clientPackage : Option String
  deriving DecidableEq

/-- Failures a Credential Broker call (`navigator.credentials.create`) can
raise, following the spec's taxonomy. -/
inductive BrokerFailure
  | userCancelled
  | unsupported
  | optionsRejected
  deriving DecidableEq

/-- The failures the passkey module can propagate to its callers. -/
inductive Err
  | missingAccountsToken
  | network
  | serverError (status : Nat)
  | fetchFailed (status : Nat)
  | malformedEncoding
  | broker (e : BrokerFailure)
  | ensureFailed
  deriving DecidableEq

/-- One HTTP request as issued through `HTTPService`/`fetch`: URL, typed
body, query parameters, and headers. -/
structure HttpRequest (β : Type) where
  url : String
  body : β
  params : List (String × String)
  headers : List (String × String)
  deriving DecidableEq

/-- The outcome the world supplies for one `HTTPService` call: axios-style,
a non-2xx response surfaces as a thrown failure carrying the status. -/
inductive HttpOutcome (α : Type)
  | networkError
  | failure (status : Nat)
  | success (data : α)
  deriving DecidableEq

/-- The outcome the world supplies for one `fetch` call: a transport
failure, or a response with an HTTP status and a parsed JSON body. -/
inductive FetchOutcome (α : Type)
  | networkError
  | response (status : Nat) (body : α)
  deriving DecidableEq

/-- Whether a result is the locally raised missing-token failure (the
spec's `AuthenticationRequiredError`). -/
def isAuthRequiredFailure {α : Type} : Except Err α → Bool
  | .error .missingAccountsToken => true
  | _ => false

/-- Header builder `accountsAuthenticatedRequestHeaders`: throws when the
token is falsy (`null` or empty), else emits `X-Auth-Token` and, when a
client package identifier is truthy, `X-Client-Package`. -/
def accountsAuthenticatedRequestHeaders (st : ClientState) :
    Except Err (List (String × String)) :=
  match st.token with
  | none => .error .missingAccountsToken
  | some token =>
    if token = "" then .error .missingAccountsToken
    else
      let headers := [("X-Auth-Token", token)]
      match st.clientPackage with
      | some cp =>
        if cp = "" then .ok headers
        else .ok (headers ++ [("X-Client-Package", cp)])
      | none => .ok headers

/-! ## Passkey management operations -/

/-- A registered passkey record (source `interface Passkey`). -/
structure Passkey where
  id : String
  userID : Int
  friendlyName : String
  createdAt : Int
  deriving DecidableEq

/-- `getPasskeys`: returns `undefined` without any network call when the
token is falsy; otherwise issues an authenticated GET and returns its
data. The second component records the request issued, if any. -/
def getPasskeys (st : ClientState) (outcome : HttpOutcome (List Passkey)) :
    Except Err (Option (List Passkey)) × Option (HttpRequest Unit) :=
  match st.token with
  | none => (.ok none, none)
  | some token =>
    if token = "" then (.ok none, none)
    else
      let req : HttpRequest Unit :=
        { url := "/passkeys", body := (), params := [],
          headers := [("X-Auth-Token", token)] }
      match outcome with
      | .networkError => (.error .network, some req)
      | .failure status => (.error (.serverError status), some req)
      | .success data => (.ok (some data), some req)

/-- `renamePasskey`: returns `undefined` without any network call when the
token is falsy; otherwise PATCHes the passkey with the new friendly name
as a query parameter. Transport failures are logged and rethrown. -/
def renamePasskey (st : ClientState) (id name : String)
    (outcome : HttpOutcome Unit) :
    Except Err (Option Unit) × Option (HttpRequest Unit) :=
  match st.token with
  | none => (.ok none, none)
  | some token =>
    if token = "" then (.ok none, none)
    else
      let req : HttpRequest Unit :=
        { url := "/passkeys/" ++ id, body := (),
          params := [("friendlyName", name)],
          headers := [("X-Auth-Token", token)] }
      match outcome with
      | .networkError => (.error .network, some req)
      | .failure status => (.error (.serverError status), some req)
      | .success _ => (.ok (some ()), some req)

/-- `deletePasskey`: returns `undefined` without any network call when the
token is falsy; otherwise DELETEs the passkey. Transport failures are
logged and rethrown. -/
def deletePasskey (st : ClientState) (id : String)
    (outcome : HttpOutcome Unit) :
    Except Err (Option Unit) × Option (HttpRequest Unit) :=
  match st.token with
  | none => (.ok none, none)
  | some token =>
    if token = "" then (.ok none, none)
    else
      let req : HttpRequest Unit :=
        { url := "/passkeys/" ++ id, body := (), params := [],
          headers := [("X-Auth-Token", token)] }
      match outcome with
      | .networkError => (.error .network, some req)
      | .failure status => (.error (.serverError status), some req)
      | .success _ => (.ok (some ()), some req)

/-! ## Registration ceremony -/

/-- The `publicKey` member of the creation options as received from the
server: `challenge` and user `id` arrive as base64 text; `rest` stands for
the remaining fields, which the client carries through unchanged. -/
structure CreationOptionsWire where
  challenge : String
  userId : String
  rest : String
  deriving DecidableEq

/-- The creation options after the client replaced the two text fields by
their decoded bytes, as handed to the Credential Broker. -/
structure CreationOptionsDecoded where
  challenge : List Nat
  userId : List Nat
  rest : String
  deriving DecidableEq

/-- The begin-registration response body. -/
structure RegBeginResponse where
  sessionID : String
  optionsPublicKey : CreationOptionsWire
  deriving DecidableEq

/-- The credential produced by `navigator.credentials.create`: the string
identifier, the raw binary identifier (present on the platform object but
never read by this module), the type discriminator, and the two binary
response payloads. -/
structure RegCredential where
  id : String
  rawId : List Nat
  type : String
  attestationObject : List Nat
  clientDataJSON : List Nat
  deriving DecidableEq

/-- The JSON body of the finish-registration POST. -/
structure FinishRegBody where
  id : String
  rawId : String
  type : String
  attestationObject : String
  clientDataJSON : String
  deriving DecidableEq

/-- `getPasskeyRegistrationOptions`: fetch the begin-registration options
with the accounts auth headers; the header builder's failure surfaces
before any network call, and a non-ok (outside 200–299) response status is
thrown as a fetch failure. -/
def getPasskeyRegistrationOptions (st : ClientState)
    (outcome : FetchOutcome RegBeginResponse) :
    Except Err RegBeginResponse × Option (HttpRequest Unit) :=
  match accountsAuthenticatedRequestHeaders st with
  | .error e => (.error e, none)
  | .ok headers =>
    let req : HttpRequest Unit :=
      { url := "/passkeys/registration/begin", body := (), params := [],
        headers := headers }
    match outcome with
    | .networkError => (.error .network, some req)
    | .response status body =>
      if 200 ≤ status ∧ status ≤ 299 then (.ok body, some req)
      else (.error (.fetchFailed status), some req)

/-- `finishPasskeyRegistration`: encode the credential's two payloads,
read the token through `ensure` (which throws on `null` only), and POST
the finish body with `friendlyName` and `sessionID` as query parameters
and the auth token header. -/
def finishPasskeyRegistration (st : ClientState) (friendlyName : String)
    (credential : RegCredential) (sessionID : String)
    (outcome : HttpOutcome Unit) :
    Except Err Unit × Option (HttpRequest FinishRegBody) :=
  let attestationObjectB64 := toB64URLSafeNoPadding credential.attestationObject
  let clientDataJSONB64 := toB64URLSafeNoPadding credential.clientDataJSON
  match st.token with
  | none => (.error .ensureFailed, none)
  | some token =>
    let req : HttpRequest FinishRegBody :=
      { url := "/passkeys/registration/finish",
        body := { id := credential.id, rawId := credential.id,
                  type := credential.type,
                  attestationObject := attestationObjectB64,
                  clientDataJSON := clientDataJSONB64 },
        params := [("friendlyName", friendlyName), ("sessionID", sessionID)],
        headers := [("X-Auth-Token", token)] }
    match outcome with
    | .networkError => (.error .network, some req)
    | .failure status => (.error (.serverError status), some req)
    | .success _ => (.ok (), some req)

/-- Everything one `registerPasskey` run did: the final outcome, the begin
request issued, the decoded options passed to the Credential Broker, and
the finish request issued — each `none` when that step was never reached. -/
structure RegistrationRun where
  result : Except Err Unit
  beginRequest : Option (HttpRequest Unit)
  brokerOptions : Option CreationOptionsDecoded
  finishRequest : Option (HttpRequest FinishRegBody)

/-- `registerPasskey`: fetch the registration options, replace the
challenge and user id by their decoded bytes, invoke the Credential Broker
(whose failure, or `null` result rejected by `ensure`, stops the run), and
submit the finish request. -/
def registerPasskey (st : ClientState) (name : String)
    (beginOutcome : FetchOutcome RegBeginResponse)
    (broker : CreationOptionsDecoded → Except BrokerFailure (Option RegCredential))
    (finishOutcome : HttpOutcome Unit) : RegistrationRun :=
  match getPasskeyRegistrationOptions st beginOutcome with
  | (.error e, breq) =>
    { result := .error e, beginRequest := breq, brokerOptions := none,
      finishRequest := none }
  | (.ok resp, breq) =>
    match from_base64 resp.optionsPublicKey.challenge with
    | none =>
      { result := .error .malformedEncoding, beginRequest := breq,
        brokerOptions := none, finishRequest := none }
    | some challengeBytes =>
      match from_base64 resp.optionsPublicKey.userId with
      | none =>
        { result := .error .malformedEncoding, beginRequest := breq,
          brokerOptions := none, finishRequest := none }
      | some userIdBytes =>
        let options : CreationOptionsDecoded :=
          { challenge := challengeBytes, userId := userIdBytes,
            rest := resp.optionsPublicKey.rest }
        match broker options with
        | .error e =>
          { result := .error (.broker e), beginRequest := breq,
            brokerOptions := some options, finishRequest := none }
        | .ok none =>
          { result := .error .ensureFailed, beginRequest := breq,
            brokerOptions := some options, finishRequest := none }
        | .ok (some credential) =>
          let fin := finishPasskeyRegistration st name credential
            resp.sessionID finishOutcome
          { result := fin.1, beginRequest := breq,
            brokerOptions := some options, finishRequest := fin.2 }

/-! ## Authentication ceremony -/

/-- The begin-authentication response body; `optionsRest` stands for the
request options, which this module returns undecoded. -/
structure BeginAuthResponse where
  ceremonySessionID : String
  optionsRest : String
  deriving DecidableEq

/-- `beginPasskeyAuthentication`: POST the login session identifier to the
begin endpoint with no headers. The ambient storage argument records that
the function never reads it. -/
def beginPasskeyAuthentication (_st : ClientState) (sessionId : String)
    (outcome : HttpOutcome BeginAuthResponse) :
    Except Err BeginAuthResponse × HttpRequest (List (String × String)) :=
  let req : HttpRequest (List (String × String)) :=
    { url := "/users/two-factor/passkeys/begin",
      body := [("sessionID", sessionId)], params := [], headers := [] }
  match outcome with
  | .networkError => (.error .network, req)
  | .failure status => (.error (.serverError status), req)
  | .success data => (.ok data, req)

/-- The credential produced by `navigator.credentials.get` during
authentication: identifier, raw binary identifier (never read by this
module), type discriminator, and the four binary response payloads. -/
structure AuthCredential where
  id : String
  rawId : List Nat
  type : String
  authenticatorData : List Nat
  clientDataJSON : List Nat
  signature : List Nat
  userHandle : List Nat
  deriving DecidableEq

/-- The JSON body of the finish-authentication POST. -/
structure FinishAuthBody where
  id : String
  rawId : String
  type : String
  authenticatorData : String
  clientDataJSON : String
  signature : String
  userHandle : String
  deriving DecidableEq

/-- `finishPasskeyAuthentication`: encode the four assertion payloads and
POST them with the credential identifier and both session identifiers as
query parameters; no headers are attached. -/
def finishPasskeyAuthentication (credential : AuthCredential)
    (sessionId : String) (ceremonySessionId : String)
    (outcome : HttpOutcome Unit) :
    Except Err Unit × HttpRequest FinishAuthBody :=
  let req : HttpRequest FinishAuthBody :=
    { url := "/users/two-factor/passkeys/finish",
      body := { id := credential.id, rawId := credential.id,
                type := credential.type,
                authenticatorData :=
                  toB64URLSafeNoPadding credential.authenticatorData,
                clientDataJSON :=
                  toB64URLSafeNoPadding credential.clientDataJSON,
                signature := toB64URLSafeNoPadding credential.signature,
                userHandle := toB64URLSafeNoPadding credential.userHandle },
      params := [("sessionID", sessionId),
                 ("ceremonySessionID", ceremonySessionId)],
      headers := [] }
  match outcome with
  | .networkError => (.error .network, req)
  | .failure status => (.error (.serverError status), req)
  | .success _ => (.ok (), req)

/-! ## Helper lemmas -/

theorem b64Index_b64Char : ∀ s : Nat, s < 64 → b64Index (b64Char s) = some s := by
  decide

theorem b64Decode_b64Encode (b : List Nat) (hb : ∀ x ∈ b, x < 256) :
    b64Decode (b64Encode b) = some b := by
  induction b using b64Encode.induct with
  | case1 => rfl
  | case2 b1 =>
    have h1 : b1 < 256 := hb b1 (by simp)
    rw [b64Encode, b64Decode,
      b64Index_b64Char (b1 / 4) (by omega),
      b64Index_b64Char (b1 % 4 * 16) (by omega)]
    simp only
    rw [if_pos (by omega)]
    congr 2
    omega
  | case3 b1 b2 =>
    have h1 : b1 < 256 := hb b1 (by simp)
    have h2 : b2 < 256 := hb b2 (by simp)
    rw [b64Encode, b64Decode,
      b64Index_b64Char (b1 / 4) (by omega),
      b64Index_b64Char (b1 % 4 * 16 + b2 / 16) (by omega),
      b64Index_b64Char (b2 % 16 * 4) (by omega)]
    simp only
    rw [if_pos (by omega)]
    congr 3
    · omega
    · omega
  | case4 b1 b2 b3 rest ih =>
    have h1 : b1 < 256 := hb b1 (by simp)
    have h2 : b2 < 256 := hb b2 (by simp)
    have h3 : b3 < 256 := hb b3 (by simp)
    have hrest : ∀ x ∈ rest, x < 256 := fun x hx => hb x (by simp [hx])
    rw [b64Encode, b64Decode,
      b64Index_b64Char (b1 / 4) (by omega),
      b64Index_b64Char (b1 % 4 * 16 + b2 / 16) (by omega),
      b64Index_b64Char (b2 % 16 * 4 + b3 / 64) (by omega),
      b64Index_b64Char (b3 % 64) (by omega),
      ih hrest]
    simp only
    congr 4
    · omega
    · omega
    · omega

theorem accountsHeaders_isOk (st : ClientState) (t : String)
    (ht : st.token = some t) (ht' : t ≠ "") :
    ∃ hd, accountsAuthenticatedRequestHeaders st = .ok hd := by
  unfold accountsAuthenticatedRequestHeaders
  simp only [ht, if_neg ht']
  cases st.clientPackage with
  | none => exact ⟨_, rfl⟩
  | some cp =>
    by_cases hcp : cp = ""
    · exact ⟨[("X-Auth-Token", t)], by simp [hcp]⟩
    · exact ⟨[("X-Auth-Token", t), ("X-Client-Package", cp)], by simp [hcp]⟩

theorem finishPasskeyRegistration_request (st : ClientState) (t : String)
    (ht : st.token = some t) (friendlyName : String)
    (credential : RegCredential) (sessionID : String)
    (outcome : HttpOutcome Unit) :
    (finishPasskeyRegistration st friendlyName credential sessionID
        outcome).2 =
      some { url := "/passkeys/registration/finish",
             body := { id := credential.id, rawId := credential.id,
                       type := credential.type,
                       attestationObject :=
                         toB64URLSafeNoPadding credential.attestationObject,
                       clientDataJSON :=
                         toB64URLSafeNoPadding credential.clientDataJSON },
             params := [("friendlyName", friendlyName),
                        ("sessionID", sessionID)],
             headers := [("X-Auth-Token", t)] } := by
  unfold finishPasskeyRegistration
  simp only [ht]
  cases outcome <;> rfl

theorem getPasskeyRegistrationOptions_ok (st : ClientState)
    (hd : List (String × String))
    (hhd : accountsAuthenticatedRequestHeaders st = .ok hd)
    (status : Nat) (hst : 200 ≤ status ∧ status ≤ 299)
    (resp : RegBeginResponse) :
    getPasskeyRegistrationOptions st (.response status resp) =
      (.ok resp,
        some { url := "/passkeys/registration/begin", body := (),
               params := [], headers := hd }) := by
  unfold getPasskeyRegistrationOptions
  rw [hhd]
  simp only [if_pos hst]

/-! ## Claim theorems -/

/-- C1: for every byte sequence `b` (empty, all-zero, and all-0xFF ones
included), decoding the result of encoding `b` with the URL-safe unpadded
encoder used for finish payloads yields `b` again:
`from_base64 (toB64URLSafeNoPadding b) = some b`. -/
theorem from_base64_toB64URLSafeNoPadding_roundtrip
    (b : List Nat) (hb : ∀ x ∈ b, x < 256) :
    from_base64 (toB64URLSafeNoPadding b) = some b :=
  b64Decode_b64Encode b hb

/-- Witness for C1 at the concrete byte sequence `[0, 255, 7, 128, 63]`. -/
theorem from_base64_toB64URLSafeNoPadding_roundtrip_witness :
    (∀ x ∈ ([0, 255, 7, 128, 63] : List Nat), x < 256) ∧
      from_base64 (toB64URLSafeNoPadding [0, 255, 7, 128, 63]) =
        some [0, 255, 7, 128, 63] :=
  ⟨by decide, from_base64_toB64URLSafeNoPadding_roundtrip _ (by decide)⟩

/-- C2: `finishPasskeyAuthentication` sends in its finish request exactly
the `sessionID` and `ceremonySessionID` values it was given, unmodified,
with its first session argument bound to the `sessionID` field and its
second to the `ceremonySessionID` field. -/
theorem finishPasskeyAuthentication_echoes_session_ids
    (credential : AuthCredential) (sessionId ceremonySessionId : String)
    (outcome : HttpOutcome Unit) :
    (finishPasskeyAuthentication credential sessionId ceremonySessionId
        outcome).2.params =
      [("sessionID", sessionId), ("ceremonySessionID", ceremonySessionId)] := by
  cases outcome <;> rfl

/-- C3: the redirect validator returns `true` exactly when the build is a
development build and the hostname ends with `localhost`, or the host ends
with `.ente.io` or `.ente.sh`, or the scheme is `ente:` or `enteauth:`;
and on the four concrete examples: `https://x.ente.io/path` is allowed,
`https://evil.example.com` is rejected, `ente://open` is allowed, and
`http://localhost:3000` is allowed exactly when the development flag is
set. -/
theorem isWhitelistedRedirect_characterization :
    (∀ (isDevBuild : Bool) (u : URL),
        isWhitelistedRedirect isDevBuild u = true ↔
          (isDevBuild = true ∧ jsEndsWith u.hostname "localhost" = true) ∨
            (jsEndsWith u.host ".ente.io" = true ∨
              jsEndsWith u.host ".ente.sh" = true) ∨
            (u.protocol = "ente:" ∨ u.protocol = "enteauth:")) ∧
      (∀ isDevBuild : Bool,
        isWhitelistedRedirect isDevBuild
            ⟨"https:", "x.ente.io", "x.ente.io"⟩ = true ∧
          isWhitelistedRedirect isDevBuild
            ⟨"https:", "evil.example.com", "evil.example.com"⟩ = false ∧
          isWhitelistedRedirect isDevBuild ⟨"ente:", "open", "open"⟩ = true ∧
          isWhitelistedRedirect isDevBuild
            ⟨"http:", "localhost:3000", "localhost"⟩ = isDevBuild) := by
  constructor
  · intro isDevBuild u
    simp [isWhitelistedRedirect, Bool.or_eq_true, Bool.and_eq_true,
      beq_iff_eq, or_assoc]
  · intro isDevBuild
    cases isDevBuild <;> exact ⟨by decide, by decide, by decide, by decide⟩

/-- C10: the redirect validator matches by raw string suffix, not by
domain-label boundary: in a production build the bare apex hosts `ente.io`
and `ente.sh` are rejected even over https, while in a development build
any URL whose hostname merely ends with the characters `localhost` — such
as `evil-localhost` — is accepted. -/
theorem isWhitelistedRedirect_suffix_matching :
    isWhitelistedRedirect false ⟨"https:", "ente.io", "ente.io"⟩ = false ∧
      isWhitelistedRedirect false ⟨"https:", "ente.sh", "ente.sh"⟩ = false ∧
      isWhitelistedRedirect true
        ⟨"http:", "evil-localhost", "evil-localhost"⟩ = true ∧
      ∀ u : URL, jsEndsWith u.hostname "localhost" = true →
        isWhitelistedRedirect true u = true := by
  refine ⟨by decide, by decide, by decide, ?_⟩
  intro u h
  simp [isWhitelistedRedirect, h]

/-- Witness for C10's universal part at the hostname `evil-localhost`. -/
theorem isWhitelistedRedirect_suffix_matching_witness :
    jsEndsWith "evil-localhost" "localhost" = true ∧
      isWhitelistedRedirect true
        ⟨"app:", "evil-localhost:8080", "evil-localhost"⟩ = true :=
  ⟨by decide,
    isWhitelistedRedirect_suffix_matching.2.2.2
      ⟨"app:", "evil-localhost:8080", "evil-localhost"⟩ (by decide)⟩

/-- C4: with no auth token, the three management operations — list,
rename, delete — return an undefined result, issue no network call, and
raise no failure. -/
theorem management_ops_no_token_noop (st : ClientState)
    (h : st.token = none) (id name : String)
    (g : HttpOutcome (List Passkey)) (r d : HttpOutcome Unit) :
    getPasskeys st g = (.ok none, none) ∧
      renamePasskey st id name r = (.ok none, none) ∧
      deletePasskey st id d = (.ok none, none) := by
  refine ⟨?_, ?_, ?_⟩ <;> simp [getPasskeys, renamePasskey, deletePasskey, h]

/-- Witness for C4 in a concrete token-less state. -/
theorem management_ops_no_token_noop_witness :
    (ClientState.mk none none).token = none ∧
      getPasskeys ⟨none, none⟩ (.success []) = (.ok none, none) :=
  ⟨rfl,
    (management_ops_no_token_noop ⟨none, none⟩ rfl "pk1" "newName"
        (.success []) (.success ()) (.success ())).1⟩

/-- C5: with no auth token, fetching the registration options fails with
the locally raised missing-token failure coming from the header builder,
before any network request; `registerPasskey` consequently stops with that
same failure, having issued no request and made no broker call. -/
theorem getPasskeyRegistrationOptions_missing_token (st : ClientState)
    (h : st.token = none) (outcome : FetchOutcome RegBeginResponse)
    (name : String)
    (broker : CreationOptionsDecoded → Except BrokerFailure (Option RegCredential))
    (finishOutcome : HttpOutcome Unit) :
    accountsAuthenticatedRequestHeaders st = .error .missingAccountsToken ∧
      getPasskeyRegistrationOptions st outcome =
        (.error .missingAccountsToken, none) ∧
      registerPasskey st name outcome broker finishOutcome =
        ⟨.error .missingAccountsToken, none, none, none⟩ := by
  have h1 : accountsAuthenticatedRequestHeaders st =
      .error .missingAccountsToken := by
    unfold accountsAuthenticatedRequestHeaders
    simp only [h]
  have h2 : getPasskeyRegistrationOptions st outcome =
      (.error .missingAccountsToken, none) := by
    unfold getPasskeyRegistrationOptions
    rw [h1]
  refine ⟨h1, h2, ?_⟩
  unfold registerPasskey
  rw [h2]

/-- Witness for C5 in a concrete token-less state. -/
theorem getPasskeyRegistrationOptions_missing_token_witness :
    (ClientState.mk none (some "pkg")).token = none ∧
      registerPasskey ⟨none, some "pkg"⟩ "my key"
          (.response 200 ⟨"sess", ⟨"AQID", "AA", "rp"⟩⟩)
          (fun _ => .ok none) (.success ()) =
        ⟨.error .missingAccountsToken, none, none, none⟩ :=
  ⟨rfl,
    (getPasskeyRegistrationOptions_missing_token ⟨none, some "pkg"⟩ rfl
        (.response 200 ⟨"sess", ⟨"AQID", "AA", "rp"⟩⟩) "my key"
        (fun _ => .ok none) (.success ())).2.2⟩

/-- C6: a Credential Broker failure during registration propagates to the
caller as exactly that broker failure — it is not caught, wrapped, or
converted into another error, whatever the failure is. -/
theorem registerPasskey_propagates_broker_failure (st : ClientState)
    (t : String) (ht : st.token = some t) (ht' : t ≠ "")
    (name : String) (resp : RegBeginResponse) (status : Nat)
    (hst : 200 ≤ status ∧ status ≤ 299) (cb ub : List Nat)
    (hch : from_base64 resp.optionsPublicKey.challenge = some cb)
    (hid : from_base64 resp.optionsPublicKey.userId = some ub)
    (e : BrokerFailure) (finishOutcome : HttpOutcome Unit) :
    (registerPasskey st name (.response status resp)
        (fun _ => .error e) finishOutcome).result = .error (.broker e) := by
  obtain ⟨hd, hhd⟩ := accountsHeaders_isOk st t ht ht'
  unfold registerPasskey
  rw [getPasskeyRegistrationOptions_ok st hd hhd status hst resp]
  simp only [hch, hid]

/-- Witness for C6: a user-cancelled broker call surfaces as exactly that
failure. -/
theorem registerPasskey_propagates_broker_failure_witness :
    (ClientState.mk (some "tok") none).token = some "tok" ∧
      (registerPasskey ⟨some "tok", none⟩ "my key"
          (.response 200 ⟨"sess", ⟨"AQID", "AA", "rp"⟩⟩)
          (fun _ => .error .userCancelled) (.success ())).result =
        .error (.broker .userCancelled) :=
  ⟨rfl,
    registerPasskey_propagates_broker_failure ⟨some "tok", none⟩ "tok" rfl
      (by decide) "my key" ⟨"sess", ⟨"AQID", "AA", "rp"⟩⟩ 200 (by decide)
      [1, 2, 3] [0] (by decide) (by decide) .userCancelled (.success ())⟩

/-- C7: in the registration ceremony the Credential Broker receives
exactly the decoded bytes of the challenge and user-handle fields (the
other options carried through unchanged), and the finish request carries
exactly the encoded text of the credential's attestation object and client
data, posted together with the friendly name, the session identifier, and
the auth token header. -/
theorem registerPasskey_ceremony_payloads (st : ClientState) (t : String)
    (ht : st.token = some t) (ht' : t ≠ "") (name : String)
    (resp : RegBeginResponse) (status : Nat)
    (hst : 200 ≤ status ∧ status ≤ 299) (cb ub : List Nat)
    (hch : from_base64 resp.optionsPublicKey.challenge = some cb)
    (hid : from_base64 resp.optionsPublicKey.userId = some ub)
    (credential : RegCredential) (finishOutcome : HttpOutcome Unit) :
    (registerPasskey st name (.response status resp)
        (fun _ => .ok (some credential)) finishOutcome).brokerOptions =
      some { challenge := cb, userId := ub,
             rest := resp.optionsPublicKey.rest } ∧
      (registerPasskey st name (.response status resp)
          (fun _ => .ok (some credential)) finishOutcome).finishRequest =
        some { url := "/passkeys/registration/finish",
               body := { id := credential.id, rawId := credential.id,
                         type := credential.type,
                         attestationObject :=
                           toB64URLSafeNoPadding credential.attestationObject,
                         clientDataJSON :=
                           toB64URLSafeNoPadding credential.clientDataJSON },
               params := [("friendlyName", name),
                          ("sessionID", resp.sessionID)],
               headers := [("X-Auth-Token", t)] } := by
  obtain ⟨hd, hhd⟩ := accountsHeaders_isOk st t ht ht'
  unfold registerPasskey
  rw [getPasskeyRegistrationOptions_ok st hd hhd status hst resp]
  simp only [hch, hid]
  exact ⟨trivial,
    finishPasskeyRegistration_request st t ht name credential
      resp.sessionID finishOutcome⟩

/-- Witness for C7 with a concrete begin response and credential. -/
theorem registerPasskey_ceremony_payloads_witness :
    (registerPasskey ⟨some "tok", none⟩ "my key"
        (.response 200 ⟨"sess", ⟨"AQID", "AA", "rp"⟩⟩)
        (fun _ => .ok (some ⟨"cred", [9, 9], "public-key", [1, 2], [3]⟩))
        (.success ())).brokerOptions =
      some { challenge := [1, 2, 3], userId := [0], rest := "rp" } :=
  (registerPasskey_ceremony_payloads ⟨some "tok", none⟩ "tok" rfl
      (by decide) "my key" ⟨"sess", ⟨"AQID", "AA", "rp"⟩⟩ 200 (by decide)
      [1, 2, 3] [0] (by decide) (by decide)
      ⟨"cred", [9, 9], "public-key", [1, 2], [3]⟩ (.success ())).1

/-- C8: begin-authentication issues its request with no headers at all (in
particular no auth token header), posts exactly the login session
identifier, behaves identically whatever the stored state, and never
produces the authentication-required failure — only transport or server
failures. -/
theorem beginPasskeyAuthentication_no_auth (st st' : ClientState)
    (sessionId : String) (outcome : HttpOutcome BeginAuthResponse) :
    (beginPasskeyAuthentication st sessionId outcome).2.headers = [] ∧
      (beginPasskeyAuthentication st sessionId outcome).2.body =
        [("sessionID", sessionId)] ∧
      beginPasskeyAuthentication st sessionId outcome =
        beginPasskeyAuthentication st' sessionId outcome ∧
      isAuthRequiredFailure
        (beginPasskeyAuthentication st sessionId outcome).1 = false := by
  refine ⟨?_, ?_, rfl, ?_⟩ <;> cases outcome <;> rfl

/-- C9: in the finish payloads of both ceremonies the `rawId` field equals
the `id` field — both are the credential's string identifier, independent
of the credential's raw binary identifier. -/
theorem finish_payload_rawId_eq_id (st : ClientState) (t : String)
    (ht : st.token = some t) (friendlyName sessionID : String)
    (rc : RegCredential) (ac : AuthCredential)
    (sessionId ceremonySessionId : String) (ro fo : HttpOutcome Unit) :
    (∃ freq, (finishPasskeyRegistration st friendlyName rc sessionID ro).2 =
        some freq ∧ freq.body.rawId = rc.id ∧ freq.body.id = rc.id) ∧
      (finishPasskeyAuthentication ac sessionId ceremonySessionId
          fo).2.body.rawId = ac.id ∧
      (finishPasskeyAuthentication ac sessionId ceremonySessionId
          fo).2.body.id = ac.id := by
  refine ⟨⟨_, finishPasskeyRegistration_request st t ht friendlyName rc
    sessionID ro, rfl, rfl⟩, ?_, ?_⟩ <;> cases fo <;> rfl

/-- Witness for C9 with concrete credentials whose raw binary identifiers
differ from their string identifiers. -/
theorem finish_payload_rawId_eq_id_witness :
    (finishPasskeyAuthentication
        ⟨"acred", [7, 7], "public-key", [1], [2], [3], [4]⟩ "s1" "c1"
        (.success ())).2.body.rawId = "acred" :=
  (finish_payload_rawId_eq_id ⟨some "tok", none⟩ "tok" rfl "fn" "sess"
      ⟨"rcred", [9, 9], "public-key", [1, 2], [3]⟩
      ⟨"acred", [7, 7], "public-key", [1], [2], [3], [4]⟩ "s1" "c1"
      (.success ()) (.success ())).2.1

end EntePasskey
